import Mathlib

set_option autoImplicit false

/-
Shallow embedding of src/tensorrt_llm/models/chatglm/model.py and
src/tensorrt_llm/models/chatglm/tokenizer.py.

Tensors are abstracted: a hidden-state tensor is a value of an abstract
type (with + and * where the source combines tensors elementwise), and
the weight-bearing sub-modules (layernorms, attention, MLP, linear
projections) are abstract functions supplied as parameters, since their
kernels live outside the embedded files.  The Python-level control flow
(branching on the version tag, residual wiring, the layer loop, the
cache-list zipping, constructor argument plumbing) is translated
faithfully from the source.
-/

namespace ChatGLM

/-- Attention-mask categories used by the decoder layer constructor
(`AttentionMaskType.causal` and `AttentionMaskType.bidirectional` are the
two values that `ChatGLMDecoderLayer.__init__` can select). -/
inductive AttentionMaskType where
  | causal
  | bidirectional
deriving DecidableEq, Repr

/-- The configuration fields of `PretrainedConfig` that the embedded code
reads.  `tp_size` stands for `config.mapping.tp_size`. -/
structure PretrainedConfig where
  chatglm_version : String
  num_hidden_layers : Nat
  apply_residual_connection_post_layernorm : Bool
  hidden_size : Nat
  output_vocab_size : Nat
  tp_size : Nat

/-- The `if/elif` chain of `ChatGLMDecoderLayer.__init__` (model.py lines
46-51).  It has no `else` branch, so for an unrecognized version tag the
local `attention_mask_type` is never bound and the constructor fails with
an UnboundLocalError when line 67 reads it; that construction-time
failure is modelled as `none`. -/
def attentionMaskTypeOf (chatglm_version : String) : Option AttentionMaskType :=
  if chatglm_version = "glm" then
    some AttentionMaskType.causal
  else if chatglm_version = "chatglm" then
    some AttentionMaskType.bidirectional
  else if chatglm_version ∈ ["chatglm2", "chatglm3"] then
    some AttentionMaskType.causal
  else
    none

/-- A constructed decoder layer: the configuration-derived fields of
`ChatGLMDecoderLayer` together with its weight-bearing sub-modules,
abstracted as functions on the hidden-state type `R`.  The attention
sub-module returns the pair (attention_output, presents); when the layer
is called with `use_cache=False` the second component is simply unused,
which matches the source unpacking `attention_output, presents` only
under `if use_cache:`. -/
structure ChatGLMDecoderLayer (R P : Type) where
  chatglm_version : String
  apply_residual_connection_post_layernorm : Bool
  alpha : R
  attention_mask_type : AttentionMaskType
  input_layernorm : R → R
  attention : R → R × P
  post_layernorm : R → R
  mlp : R → R

/-- Embedding of `ChatGLMDecoderLayer.__init__` over real-valued hidden
states: copies the version tag and the residual flag from the config,
sets `alpha = (2 * num_hidden_layers) ** 0.5` (line 43), and selects the
attention-mask category by the version chain (lines 46-51), failing
(`none`) on an unrecognized tag. -/
noncomputable def ChatGLMDecoderLayer.init {P : Type} (config : PretrainedConfig)
    (input_layernormF : ℝ → ℝ) (attentionF : ℝ → ℝ × P)
    (post_layernormF : ℝ → ℝ) (mlpF : ℝ → ℝ) :
    Option (ChatGLMDecoderLayer ℝ P) :=
  (attentionMaskTypeOf config.chatglm_version).map (fun mt =>
    { chatglm_version := config.chatglm_version
      apply_residual_connection_post_layernorm :=
        config.apply_residual_connection_post_layernorm
      alpha := Real.sqrt (2 * (config.num_hidden_layers : ℝ))
      attention_mask_type := mt
      input_layernorm := input_layernormF
      attention := attentionF
      post_layernorm := post_layernormF
      mlp := mlpF })

/-- Embedding of `ChatGLMDecoderLayer.forward` (model.py lines 106-158):
input layernorm, attention, then the version-dependent residual wiring.
For version `chatglm` both combinations scale the residual by
`self.alpha`; otherwise both are plain additions with the residual source
selected by `apply_residual_connection_post_layernorm`.  The returned
pair is (output, presents). -/
def ChatGLMDecoderLayer.forward {R P : Type} [Add R] [Mul R]
    (self : ChatGLMDecoderLayer R P) (hidden_states : R) : R × P :=
  let norm_output := self.input_layernorm hidden_states
  let att := self.attention norm_output
  let attention_output := att.1
  let presents := att.2
  if self.chatglm_version = "chatglm" then
    let residual := norm_output
    let norm_input := residual * self.alpha + attention_output
    let norm_output2 := self.post_layernorm norm_input
    let mlp_output := self.mlp norm_output2
    let residual2 := norm_output2
    (residual2 * self.alpha + mlp_output, presents)
  else
    let residual :=
      if self.apply_residual_connection_post_layernorm then norm_output
      else hidden_states
    let norm_input := residual + attention_output
    let norm_output2 := self.post_layernorm norm_input
    let mlp_output := self.mlp norm_output2
    let residual2 :=
      if self.apply_residual_connection_post_layernorm then norm_output2
      else norm_input
    (residual2 + mlp_output, presents)

/-- The per-layer cache lists of `KeyValueCacheParams` that
`ChatGLMModel.forward` zips against the layers (model.py lines 248-252).
Each entry is an `Option`, since absent entries are the Python value
`None`.  The shared scalar fields (host past lengths, sink length, cache
indirection) do not affect the claims and are omitted. -/
structure KeyValueCacheParams (PKV BP HBP W : Type) where
  past_key_value : List (Option PKV)
  kv_cache_block_pointers : List (Option BP)
  host_kv_cache_block_pointers : List (Option HBP)
  host_max_attention_window_sizes : List (Option W)

/-- Modelled from the spec: the body of
`KeyValueCacheParams.fill_none_tensor_list` lives in
`tensorrt_llm/layers`, which is not under src/; the spec states that
after normalization "the list length of all per-layer fields equals
layer count" and "absent entries are filled with a neutral placeholder,
not left ragged".  A single list is padded with `none` up to the layer
count. -/
def fillNoneList {A : Type} (xs : List (Option A)) (list_size : Nat) :
    List (Option A) :=
  xs ++ List.replicate (list_size - xs.length) none

/-- Modelled from the spec: `kv_cache_params.fill_none_tensor_list(len(self.layers))`
(model.py line 243) normalizes every per-layer list of the descriptor to
the layer count, filling absent entries with the neutral placeholder
`none`. -/
def KeyValueCacheParams.fill_none_tensor_list {PKV BP HBP W : Type}
    (self : KeyValueCacheParams PKV BP HBP W) (list_size : Nat) :
    KeyValueCacheParams PKV BP HBP W :=
  { past_key_value := fillNoneList self.past_key_value list_size
    kv_cache_block_pointers := fillNoneList self.kv_cache_block_pointers list_size
    host_kv_cache_block_pointers :=
      fillNoneList self.host_kv_cache_block_pointers list_size
    host_max_attention_window_sizes :=
      fillNoneList self.host_max_attention_window_sizes list_size }

/-- Python `zip` over five lists: stops at the shortest list, so it never
indexes out of range. -/
def zip5 {A B C D E : Type} :
    List A → List B → List C → List D → List E → List (A × B × C × D × E)
  | a :: as, b :: bs, c :: cs, d :: ds, e :: es =>
      (a, b, c, d, e) :: zip5 as bs cs ds es
  | _, _, _, _, _ => []

/-- The iteration sequence of the layer loop of `ChatGLMModel.forward`
(model.py lines 243-252): the descriptor is normalized with
`fill_none_tensor_list(len(self.layers))` and then the layers are zipped
with the four per-layer lists; the i-th tuple is what the i-th loop
iteration receives. -/
def ChatGLMModel.layerIteration {L PKV BP HBP W : Type} (layers : List L)
    (kv_cache_params : KeyValueCacheParams PKV BP HBP W) :
    List (L × Option PKV × Option BP × Option HBP × Option W) :=
  let kv := kv_cache_params.fill_none_tensor_list layers.length
  zip5 layers kv.past_key_value kv.kv_cache_block_pointers
    kv.host_kv_cache_block_pointers kv.host_max_attention_window_sizes

/-- The hidden-state/presents part of the layer loop of
`ChatGLMModel.forward` (model.py lines 245-274), with each layer
abstracted as a function from its input hidden states to its
(output, presents) pair.  Faithful to the source: `layer_output` is
computed every iteration, but `hidden_states` is reassigned from it (and
the present appended) only inside `if use_cache:`; there is no `else`
branch. -/
def ChatGLMModel.layerLoop {H P : Type} (use_cache : Bool)
    (layers : List (H → H × P)) (hidden_states : H) : H × List P :=
  layers.foldl
    (fun acc layer =>
      let layer_output := layer acc.1
      if use_cache then (layer_output.1, acc.2 ++ [layer_output.2]) else acc)
    (hidden_states, [])

/-- Embedding of the tail of `ChatGLMModel.forward` (model.py lines
245-280): run the layer loop on the embedding-stage hidden states, then
apply the final normalization `ln_f` to whatever `hidden_states` holds
after the loop, returning the presents alongside. -/
def ChatGLMModel.forward {H P : Type} (use_cache : Bool)
    (layers : List (H → H × P)) (ln_f : H → H) (hidden_states : H) :
    H × List P :=
  let r := ChatGLMModel.layerLoop use_cache layers hidden_states
  (ln_f r.1, r.2)

/-- The dual positional-embedding path of `ChatGLMModel.forward` for
version `glm` when `remove_input_padding` is set (model.py lines
217-232): `position_ids` has shape [2, num_tokens]; `split(1, dim=0)`
yields the two [1, num_tokens] slices, each embedding table is applied
elementwise, the results are added elementwise, and the final `view`
drops the leading singleton axis.  An index tensor of shape [2, T] is a
`List (List Nat)` of two rows, an embedding table maps an index to a
hidden vector of abstract type `H`, and the result is the [T]-indexed
list of hidden vectors. -/
def glmPositionEmbeddingPacked {H : Type} [Add H]
    (position_embeddingF block_embeddingF : Nat → H)
    (position_ids : List (List Nat)) : List H :=
  let position_ids_list := position_ids.map (fun row => [row])
  let position_embedding :=
    (position_ids_list.getD 0 []).map (fun row => row.map position_embeddingF)
  let block_embedding :=
    (position_ids_list.getD 1 []).map (fun row => row.map block_embeddingF)
  let summed :=
    List.zipWith (fun r1 r2 => List.zipWith (fun x y => x + y) r1 r2)
      position_embedding block_embedding
  summed.flatten

/-- The dual positional-embedding path of `ChatGLMModel.forward` for
version `glm` when `remove_input_padding` is not set (model.py lines
217-239): `position_ids` has shape [batch, 2, seq]; `split(1, dim=1)`
yields the two [batch, 1, seq] slices, each embedding table is applied
elementwise, the results are added elementwise, and the final `view`
drops the singleton middle axis, giving shape [batch, seq]. -/
def glmPositionEmbeddingPadded {H : Type} [Add H]
    (position_embeddingF block_embeddingF : Nat → H)
    (position_ids : List (List (List Nat))) : List (List H) :=
  let position_ids_list :=
    fun (i : Nat) => position_ids.map (fun row => [row.getD i []])
  let position_embedding :=
    (position_ids_list 0).map (fun r => r.map (fun row => row.map position_embeddingF))
  let block_embedding :=
    (position_ids_list 1).map (fun r => r.map (fun row => row.map block_embeddingF))
  let summed :=
    List.zipWith
      (fun a b =>
        List.zipWith (fun r1 r2 => List.zipWith (fun x y => x + y) r1 r2) a b)
      position_embedding block_embedding
  summed.map List.flatten

/-- The constructor-relevant fields of a `ColumnLinear` sub-module:
feature dimensions and the sharding arguments it was built with. -/
structure ColumnLinear where
  in_features : Nat
  out_features : Nat
  bias : Bool
  tp_group : Option Nat
  tp_size : Nat

/-- A constructed `ChatGLMLMHead`: the two `ColumnLinear` configurations
plus the weight-bearing functions of the three stages, abstracted over
the hidden-state type `V`. -/
structure ChatGLMLMHead (V : Type) where
  fc : ColumnLinear
  proj : ColumnLinear
  fcF : V → V
  layernormF : V → V
  projF : V → V

/-- Embedding of `ChatGLMLMHead.__init__` (model.py lines 283-313): both
`ColumnLinear` sub-modules are built with `bias=True`, `tp_group=None`,
`tp_size=1` literally, ignoring the constructor's own `bias`,
`tp_group` and `tp_size` parameters; `fc` maps hidden_size to
hidden_size and `proj` maps hidden_size to vocab_size. -/
def ChatGLMLMHead.init {V : Type} (hidden_size vocab_size : Nat)
    (b : Bool) (tpg : Option Nat) (tps : Nat)
    (fcF layernormF projF : V → V) : ChatGLMLMHead V :=
  { fc :=
      { in_features := hidden_size
        out_features := hidden_size
        bias := true
        tp_group := none
        tp_size := 1 }
    proj :=
      { in_features := hidden_size
        out_features := vocab_size
        bias := true
        tp_group := none
        tp_size := 1 }
    fcF := fcF
    layernormF := layernormF
    projF := projF }

/-- Embedding of `ChatGLMLMHead.forward` (model.py lines 315-321): fc,
then gelu, then layernorm, then proj.  It is a pure function of the
hidden states; no cache state appears. -/
def ChatGLMLMHead.forward {V : Type} (geluF : V → V)
    (self : ChatGLMLMHead V) (hidden_states : V) : V :=
  self.projF (self.layernormF (geluF (self.fcF hidden_states)))

/-- Modelled from the spec: `pad_vocab_size` from `tensorrt_llm._utils`
is not under src/; the spec says the output projection is "padded to a
multiple dictated by parallelism degree", i.e. the vocabulary size is
rounded up to the next multiple of the tensor-parallel size. -/
def pad_vocab_size (vocab_size tp_size : Nat) : Nat :=
  ((vocab_size + tp_size - 1) / tp_size) * tp_size

/-- Embedding of the output-head construction in
`ChatGLMForCausalLM.__init__` (model.py lines 328-338): the head is
built on `config.hidden_size` and
`pad_vocab_size(config.output_vocab_size, config.mapping.tp_size)`, with
the constructor's `bias`, `tp_group` and `tp_size` parameters left at
their defaults (`True`, `None`, `1`). -/
def ChatGLMForCausalLM.lm_head {V : Type} (config : PretrainedConfig)
    (fcF layernormF projF : V → V) : ChatGLMLMHead V :=
  ChatGLMLMHead.init config.hidden_size
    (pad_vocab_size config.output_vocab_size config.tp_size)
    true none 1 fcF layernormF projF

/-- Embedding of the branch of `ChatGLMForCausalLM.prepare_inputs`
(model.py lines 351-360) that computes `position_encoding_2d`. -/
def ChatGLMForCausalLM.position_encoding_2d (chatglm_version : String) : Bool :=
  chatglm_version ∈ ["chatglm", "glm"]

/-- Embedding of `ZeusTokenizer.build_inputs_with_special_tokens`
(tokenizer.py lines 38-56).  When `token_ids_1` is not `None` the body
evaluates `logger.warning(...)`, but tokenizer.py defines no name
`logger` (its imports are `os`, `typing` names and
`transformers.BertTokenizer`), so that call raises a NameError before
the return statement runs; the failure is modelled as `Except.error`.
When `token_ids_1` is `None` the method returns
`token_ids_0 + [self.mask_token_id]`. -/
def ZeusTokenizer.build_inputs_with_special_tokens (mask_token_id : Nat)
    (token_ids_0 : List Nat) (token_ids_1 : Option (List Nat)) :
    Except String (List Nat) :=
  match token_ids_1 with
  | some _ => Except.error "NameError: name logger is not defined"
  | none => Except.ok (token_ids_0 ++ [mask_token_id])

/-- A concrete configuration with version tag `chatglm`, used to
instantiate universally quantified statements at a concrete input. -/
def cfgChatglm : PretrainedConfig :=
  { chatglm_version := "chatglm"
    num_hidden_layers := 2
    apply_residual_connection_post_layernorm := false
    hidden_size := 4
    output_vocab_size := 10
    tp_size := 1 }

/-- The decoder layer that `ChatGLMDecoderLayer.init` builds from
`cfgChatglm` with identity sub-modules. -/
noncomputable def layerChatglm : ChatGLMDecoderLayer ℝ Nat :=
  { chatglm_version := cfgChatglm.chatglm_version
    apply_residual_connection_post_layernorm :=
      cfgChatglm.apply_residual_connection_post_layernorm
    alpha := Real.sqrt (2 * (cfgChatglm.num_hidden_layers : ℝ))
    attention_mask_type := AttentionMaskType.bidirectional
    input_layernorm := fun x => x
    attention := fun x => (x, 0)
    post_layernorm := fun x => x
    mlp := fun x => x }

/-- A concrete configuration with version tag `chatglm2`. -/
def cfgChatglm2 : PretrainedConfig :=
  { chatglm_version := "chatglm2"
    num_hidden_layers := 2
    apply_residual_connection_post_layernorm := false
    hidden_size := 4
    output_vocab_size := 10
    tp_size := 1 }

/-- The decoder layer that `ChatGLMDecoderLayer.init` builds from
`cfgChatglm2` with identity sub-modules. -/
noncomputable def layerChatglm2 : ChatGLMDecoderLayer ℝ Nat :=
  { chatglm_version := cfgChatglm2.chatglm_version
    apply_residual_connection_post_layernorm :=
      cfgChatglm2.apply_residual_connection_post_layernorm
    alpha := Real.sqrt (2 * (cfgChatglm2.num_hidden_layers : ℝ))
    attention_mask_type := AttentionMaskType.causal
    input_layernorm := fun x => x
    attention := fun x => (x, 0)
    post_layernorm := fun x => x
    mlp := fun x => x }

/-- A concrete configuration whose tensor-parallel size exceeds 1. -/
def cfgTp2 : PretrainedConfig :=
  { chatglm_version := "chatglm3"
    num_hidden_layers := 2
    apply_residual_connection_post_layernorm := false
    hidden_size := 4
    output_vocab_size := 10
    tp_size := 2 }

theorem fillNoneList_length {A : Type} (xs : List (Option A)) (n : Nat)
    (h : xs.length ≤ n) : (fillNoneList xs n).length = n := by
  simp only [fillNoneList, List.length_append, List.length_replicate]
  omega

theorem zip5_length {A B C D E : Type}
    (as : List A) (bs : List B) (cs : List C) (ds : List D) (es : List E)
    (hb : bs.length = as.length) (hc : cs.length = as.length)
    (hd : ds.length = as.length) (he : es.length = as.length) :
    (zip5 as bs cs ds es).length = as.length := by
  induction as generalizing bs cs ds es with
  | nil => rfl
  | cons a as ih =>
    cases bs with
    | nil => simp at hb
    | cons b bs =>
      cases cs with
      | nil => simp at hc
      | cons c cs =>
        cases ds with
        | nil => simp at hd
        | cons d ds =>
          cases es with
          | nil => simp at he
          | cons e es =>
            simp only [List.length_cons] at hb hc hd he
            simp only [zip5, List.length_cons]
            rw [ih bs cs ds es (by omega) (by omega) (by omega) (by omega)]

theorem zip5_getElem {A B C D E : Type}
    (dA : A) (dB : B) (dC : C) (dD : D) (dE : E)
    (as : List A) (bs : List B) (cs : List C) (ds : List D) (es : List E)
    (i : Nat) (ha : i < as.length) (hb : i < bs.length) (hc : i < cs.length)
    (hd : i < ds.length) (he : i < es.length) :
    (zip5 as bs cs ds es)[i]? =
      some (as.getD i dA, bs.getD i dB, cs.getD i dC, ds.getD i dD, es.getD i dE) := by
  induction as generalizing bs cs ds es i with
  | nil => simp at ha
  | cons a as ih =>
    cases bs with
    | nil => simp at hb
    | cons b bs =>
      cases cs with
      | nil => simp at hc
      | cons c cs =>
        cases ds with
        | nil => simp at hd
        | cons d ds =>
          cases es with
          | nil => simp at he
          | cons e es =>
            cases i with
            | zero =>
              simp only [zip5, List.getElem?_cons_zero, List.getD_cons_zero]
            | succ i =>
              simp only [List.length_cons, Nat.succ_lt_succ_iff] at ha hb hc hd he
              simp only [zip5, List.getElem?_cons_succ, List.getD_cons_succ]
              exact ih bs cs ds es i ha hb hc hd he

/-- C1.  The claim says the hidden states given to layer i+1 are exactly
layer i's output and that `ln_f` is applied to the last layer's output,
whether `use_cache` is true or false.  The code reassigns
`hidden_states` from `layer_output` only inside `if use_cache:` (model.py
lines 272-274, with no else branch), so with `use_cache=False` every
layer's output is discarded and `ln_f` is applied to the embedding-stage
hidden states: `forward false` returns `(ln_f h0, [])` for every layer
list, while the same one-layer stack under `use_cache=True` does thread
the layer output. -/
theorem chatglm_model_forward_no_cache_discards_layer_outputs :
    (∀ (H P : Type) (layers : List (H → H × P)) (ln_f : H → H) (h0 : H),
        ChatGLMModel.forward false layers ln_f h0 = (ln_f h0, [])) ∧
    (ChatGLMModel.forward true [fun h => (h + 1, (0 : Nat))]
        (fun h => h) (0 : Nat)).1 = 1 ∧
    (ChatGLMModel.forward false [fun h => (h + 1, (0 : Nat))]
        (fun h => h) (0 : Nat)).1 = 0 := by
  refine ⟨?_, rfl, rfl⟩
  intro H P layers ln_f h0
  have key : ∀ (ls : List (H → H × P)) (acc : H × List P),
      ls.foldl
        (fun acc layer =>
          let layer_output := layer acc.1
          if false then (layer_output.1, acc.2 ++ [layer_output.2]) else acc)
        acc = acc := by
    intro ls
    induction ls with
    | nil => intro acc; rfl
    | cons l ls ih => intro acc; exact ih acc
  show (ln_f (ChatGLMModel.layerLoop false layers h0).1,
      (ChatGLMModel.layerLoop false layers h0).2) = (ln_f h0, [])
  rw [show ChatGLMModel.layerLoop false layers h0 = (h0, []) from key layers (h0, [])]

/-- C2.  For a layer built with version tag `chatglm`, the first
residual combination is (input_layernorm output) * alpha + attention
output, the second is (post_layernorm output) * alpha + MLP output, and
the constant is alpha = sqrt(2 * num_hidden_layers) in both. -/
theorem chatglm_decoder_layer_scaled_residuals {P : Type}
    (config : PretrainedConfig) (ln1F : ℝ → ℝ) (attF : ℝ → ℝ × P)
    (ln2F mlpF : ℝ → ℝ) (l : ChatGLMDecoderLayer ℝ P) (hidden : ℝ)
    (hinit : ChatGLMDecoderLayer.init config ln1F attF ln2F mlpF = some l)
    (hv : config.chatglm_version = "chatglm") :
    l.alpha = Real.sqrt (2 * (config.num_hidden_layers : ℝ)) ∧
    (l.forward hidden).1 =
      ln2F (ln1F hidden * l.alpha + (attF (ln1F hidden)).1) * l.alpha +
        mlpF (ln2F (ln1F hidden * l.alpha + (attF (ln1F hidden)).1)) := by
  have hm : attentionMaskTypeOf config.chatglm_version =
      some AttentionMaskType.bidirectional := by
    rw [hv]; rfl
  unfold ChatGLMDecoderLayer.init at hinit
  rw [hm] at hinit
  simp only [Option.map_some', Option.some.injEq] at hinit
  subst hinit
  refine ⟨rfl, ?_⟩
  simp [ChatGLMDecoderLayer.forward, hv]

/-- C2 witness: the theorem applied at `cfgChatglm` with identity
sub-modules and hidden state 1. -/
theorem chatglm_decoder_layer_scaled_residuals_witness :
    (ChatGLMDecoderLayer.init cfgChatglm (fun x => x) (fun x => (x, 0))
        (fun x => x) (fun x => x) = some layerChatglm) ∧
    cfgChatglm.chatglm_version = "chatglm" ∧
    (layerChatglm.alpha = Real.sqrt (2 * (cfgChatglm.num_hidden_layers : ℝ)) ∧
      (layerChatglm.forward (1 : ℝ)).1 =
        (1 * layerChatglm.alpha + 1) * layerChatglm.alpha +
          (1 * layerChatglm.alpha + 1)) :=
  ⟨rfl, rfl,
    chatglm_decoder_layer_scaled_residuals cfgChatglm (fun x => x)
      (fun x => (x, 0)) (fun x => x) (fun x => x) layerChatglm 1 rfl rfl⟩

/-- C3.  For a layer whose version tag is not `chatglm`, both residual
combinations are plain additions; when
`apply_residual_connection_post_layernorm` is true the residual is the
corresponding layernorm's output, otherwise it is that layernorm's raw
input (the layer input for the first combination, the attention-residual
sum for the second). -/
theorem chatglm_decoder_layer_plain_residuals {P : Type}
    (config : PretrainedConfig) (ln1F : ℝ → ℝ) (attF : ℝ → ℝ × P)
    (ln2F mlpF : ℝ → ℝ) (l : ChatGLMDecoderLayer ℝ P) (hidden : ℝ)
    (hinit : ChatGLMDecoderLayer.init config ln1F attF ln2F mlpF = some l)
    (hv : config.chatglm_version ≠ "chatglm") :
    (l.apply_residual_connection_post_layernorm = true →
      (l.forward hidden).1 =
        ln2F (ln1F hidden + (attF (ln1F hidden)).1) +
          mlpF (ln2F (ln1F hidden + (attF (ln1F hidden)).1))) ∧
    (l.apply_residual_connection_post_layernorm = false →
      (l.forward hidden).1 =
        (hidden + (attF (ln1F hidden)).1) +
          mlpF (ln2F (hidden + (attF (ln1F hidden)).1))) := by
  unfold ChatGLMDecoderLayer.init at hinit
  cases hmt : attentionMaskTypeOf config.chatglm_version with
  | none => rw [hmt] at hinit; simp at hinit
  | some mt =>
    rw [hmt] at hinit
    simp only [Option.map_some', Option.some.injEq] at hinit
    subst hinit
    constructor
    · intro hflag
      simp only at hflag
      simp [ChatGLMDecoderLayer.forward, hv, hflag]
    · intro hflag
      simp only at hflag
      simp [ChatGLMDecoderLayer.forward, hv, hflag]

/-- C3 witness: the theorem applied at `cfgChatglm2` (whose residual
flag is false) with identity sub-modules and hidden state 1. -/
theorem chatglm_decoder_layer_plain_residuals_witness :
    (ChatGLMDecoderLayer.init cfgChatglm2 (fun x => x) (fun x => (x, 0))
        (fun x => x) (fun x => x) = some layerChatglm2) ∧
    cfgChatglm2.chatglm_version ≠ "chatglm" ∧
    ((layerChatglm2.apply_residual_connection_post_layernorm = true →
        (layerChatglm2.forward (1 : ℝ)).1 = (1 + 1) + (1 + 1)) ∧
      (layerChatglm2.apply_residual_connection_post_layernorm = false →
        (layerChatglm2.forward (1 : ℝ)).1 = (1 + 1) + (1 + 1))) :=
  ⟨rfl, by decide,
    chatglm_decoder_layer_plain_residuals cfgChatglm2 (fun x => x)
      (fun x => (x, 0)) (fun x => x) (fun x => x) layerChatglm2 1 rfl
      (by decide)⟩

/-- C4.  When every per-layer cache list is no longer than the layer
count, normalization pads each list to exactly the layer count with the
neutral placeholder, the layer iteration has exactly one tuple per layer
(no out-of-range access), and the i-th iteration receives the i-th
entry of each normalized per-layer list. -/
theorem chatglm_model_cache_list_normalization {L PKV BP HBP W : Type}
    (dl : L) (layers : List L) (kv : KeyValueCacheParams PKV BP HBP W)
    (h1 : kv.past_key_value.length ≤ layers.length)
    (h2 : kv.kv_cache_block_pointers.length ≤ layers.length)
    (h3 : kv.host_kv_cache_block_pointers.length ≤ layers.length)
    (h4 : kv.host_max_attention_window_sizes.length ≤ layers.length) :
    ((kv.fill_none_tensor_list layers.length).past_key_value.length
        = layers.length ∧
      (kv.fill_none_tensor_list layers.length).kv_cache_block_pointers.length
        = layers.length ∧
      (kv.fill_none_tensor_list layers.length).host_kv_cache_block_pointers.length
        = layers.length ∧
      (kv.fill_none_tensor_list layers.length).host_max_attention_window_sizes.length
        = layers.length) ∧
    (ChatGLMModel.layerIteration layers kv).length = layers.length ∧
    ∀ i, i < layers.length →
      (ChatGLMModel.layerIteration layers kv)[i]? =
        some (layers.getD i dl,
          (kv.fill_none_tensor_list layers.length).past_key_value.getD i none,
          (kv.fill_none_tensor_list layers.length).kv_cache_block_pointers.getD i none,
          (kv.fill_none_tensor_list layers.length).host_kv_cache_block_pointers.getD i none,
          (kv.fill_none_tensor_list layers.length).host_max_attention_window_sizes.getD i none) := by
  have l1 : (kv.fill_none_tensor_list layers.length).past_key_value.length
      = layers.length := fillNoneList_length _ _ h1
  have l2 : (kv.fill_none_tensor_list layers.length).kv_cache_block_pointers.length
      = layers.length := fillNoneList_length _ _ h2
  have l3 : (kv.fill_none_tensor_list layers.length).host_kv_cache_block_pointers.length
      = layers.length := fillNoneList_length _ _ h3
  have l4 : (kv.fill_none_tensor_list layers.length).host_max_attention_window_sizes.length
      = layers.length := fillNoneList_length _ _ h4
  refine ⟨⟨l1, l2, l3, l4⟩, ?_, ?_⟩
  · exact zip5_length layers _ _ _ _ l1 l2 l3 l4
  · intro i hi
    exact zip5_getElem dl none none none none layers _ _ _ _ i hi
      (by rw [l1]; exact hi) (by rw [l2]; exact hi) (by rw [l3]; exact hi)
      (by rw [l4]; exact hi)

/-- C4 witness: two layers, ragged cache lists of lengths 1, 0, 1, 0. -/
theorem chatglm_model_cache_list_normalization_witness :
    ((⟨[some 5], [], [none], []⟩ :
        KeyValueCacheParams Nat Nat Nat Nat).past_key_value.length
      ≤ ([10, 20] : List Nat).length) ∧
    ((⟨[some 5], [], [none], []⟩ :
        KeyValueCacheParams Nat Nat Nat Nat).kv_cache_block_pointers.length
      ≤ ([10, 20] : List Nat).length) ∧
    ((⟨[some 5], [], [none], []⟩ :
        KeyValueCacheParams Nat Nat Nat Nat).host_kv_cache_block_pointers.length
      ≤ ([10, 20] : List Nat).length) ∧
    ((⟨[some 5], [], [none], []⟩ :
        KeyValueCacheParams Nat Nat Nat Nat).host_max_attention_window_sizes.length
      ≤ ([10, 20] : List Nat).length) ∧
    (((⟨[some 5], [], [none], []⟩ :
          KeyValueCacheParams Nat Nat Nat Nat).fill_none_tensor_list 2).past_key_value.length = 2 ∧
      ((⟨[some 5], [], [none], []⟩ :
          KeyValueCacheParams Nat Nat Nat Nat).fill_none_tensor_list 2).kv_cache_block_pointers.length = 2 ∧
      ((⟨[some 5], [], [none], []⟩ :
          KeyValueCacheParams Nat Nat Nat Nat).fill_none_tensor_list 2).host_kv_cache_block_pointers.length = 2 ∧
      ((⟨[some 5], [], [none], []⟩ :
          KeyValueCacheParams Nat Nat Nat Nat).fill_none_tensor_list 2).host_max_attention_window_sizes.length = 2) ∧
    (ChatGLMModel.layerIteration ([10, 20] : List Nat)
        (⟨[some 5], [], [none], []⟩ : KeyValueCacheParams Nat Nat Nat Nat)).length = 2 ∧
    ∀ i, i < ([10, 20] : List Nat).length →
      (ChatGLMModel.layerIteration ([10, 20] : List Nat)
          (⟨[some 5], [], [none], []⟩ : KeyValueCacheParams Nat Nat Nat Nat))[i]? =
        some (([10, 20] : List Nat).getD i 0,
          ([some 5, none] : List (Option Nat)).getD i none,
          ([none, none] : List (Option Nat)).getD i none,
          ([none, none] : List (Option Nat)).getD i none,
          ([none, none] : List (Option Nat)).getD i none) :=
  ⟨by decide, by decide, by decide, by decide,
    chatglm_model_cache_list_normalization 0 [10, 20]
      ⟨[some 5], [], [none], []⟩ (by decide) (by decide) (by decide) (by decide)⟩

/-- C5.  Layer construction succeeds exactly for the four recognized
version tags (an unrecognized tag leaves the attention-mask local
unbound, a construction-time failure), and each recognized tag selects
exactly one attention-mask category. -/
theorem chatglm_decoder_layer_version_tag_check {P : Type}
    (config : PretrainedConfig) (ln1F : ℝ → ℝ) (attF : ℝ → ℝ × P)
    (ln2F mlpF : ℝ → ℝ) :
    ((ChatGLMDecoderLayer.init config ln1F attF ln2F mlpF).isSome ↔
      config.chatglm_version ∈ ["glm", "chatglm", "chatglm2", "chatglm3"]) ∧
    attentionMaskTypeOf "glm" = some AttentionMaskType.causal ∧
    attentionMaskTypeOf "chatglm" = some AttentionMaskType.bidirectional ∧
    attentionMaskTypeOf "chatglm2" = some AttentionMaskType.causal ∧
    attentionMaskTypeOf "chatglm3" = some AttentionMaskType.causal := by
  refine ⟨?_, rfl, rfl, rfl, rfl⟩
  have hmap : (ChatGLMDecoderLayer.init config ln1F attF ln2F mlpF).isSome
      = (attentionMaskTypeOf config.chatglm_version).isSome := by
    unfold ChatGLMDecoderLayer.init
    cases attentionMaskTypeOf config.chatglm_version <;> rfl
  rw [hmap]
  unfold attentionMaskTypeOf
  by_cases h1 : config.chatglm_version = "glm"
  · simp [h1]
  · by_cases h2 : config.chatglm_version = "chatglm"
    · simp [h1, h2]
    · by_cases h3 : config.chatglm_version ∈ (["chatglm2", "chatglm3"] : List String)
      · simp only [List.mem_cons, List.not_mem_nil, or_false] at h3
        rcases h3 with h3 | h3 <;> simp [h1, h2, h3]
      · simp only [List.mem_cons, List.not_mem_nil, or_false] at h3
        push_neg at h3
        simp [h1, h2, h3.1, h3.2]

/-- C6.  The dual positional embedding for version `glm`: in the packed
layout the token with index pair (p, b) receives
position_embedding(p) + block_embedding(b), and in the padded layout
every batch row receives the same per-token values — the layout flag
changes only the split axis and reshape, not the numeric result. -/
theorem glm_dual_position_embedding_layout_invariant {H : Type} [Add H]
    (position_embeddingF block_embeddingF : Nat → H)
    (p b : List Nat) (batch : List (List Nat × List Nat)) :
    glmPositionEmbeddingPacked position_embeddingF block_embeddingF [p, b] =
      List.zipWith (fun x y => position_embeddingF x + block_embeddingF y) p b ∧
    glmPositionEmbeddingPadded position_embeddingF block_embeddingF
        (batch.map (fun pb => [pb.1, pb.2])) =
      batch.map (fun pb =>
        List.zipWith (fun x y => position_embeddingF x + block_embeddingF y)
          pb.1 pb.2) := by
  constructor
  · simp [glmPositionEmbeddingPacked, List.zipWith_map]
  · simp [glmPositionEmbeddingPadded, List.map_map, Function.comp,
      List.zipWith_map, List.zipWith_same]

/-- C7.  The output head computes proj (layernorm (gelu (fc h))): fc
maps hidden size to hidden size and proj maps hidden size to the padded
vocabulary size; the forward is a pure function of the hidden states
(no cache state appears). -/
theorem chatglm_lm_head_pipeline {V : Type} (geluF : V → V)
    (config : PretrainedConfig) (fcF layernormF projF : V → V)
    (hidden_states : V) :
    (ChatGLMForCausalLM.lm_head config fcF layernormF projF).forward geluF
        hidden_states = projF (layernormF (geluF (fcF hidden_states))) ∧
    (ChatGLMForCausalLM.lm_head config fcF layernormF projF).fc.in_features
      = config.hidden_size ∧
    (ChatGLMForCausalLM.lm_head config fcF layernormF projF).fc.out_features
      = config.hidden_size ∧
    (ChatGLMForCausalLM.lm_head config fcF layernormF projF).proj.in_features
      = config.hidden_size ∧
    (ChatGLMForCausalLM.lm_head config fcF layernormF projF).proj.out_features
      = pad_vocab_size config.output_vocab_size config.tp_size :=
  ⟨rfl, rfl, rfl, rfl, rfl⟩

/-- C8.  The input-preparation contract reports 2D positional encoding
exactly for the two legacy tags and 1D for `chatglm2`/`chatglm3`. -/
theorem chatglm_prepare_inputs_position_encoding_2d (chatglm_version : String) :
    (ChatGLMForCausalLM.position_encoding_2d chatglm_version = true ↔
      chatglm_version = "chatglm" ∨ chatglm_version = "glm") ∧
    ChatGLMForCausalLM.position_encoding_2d "chatglm2" = false ∧
    ChatGLMForCausalLM.position_encoding_2d "chatglm3" = false := by
  refine ⟨?_, rfl, rfl⟩
  simp [ChatGLMForCausalLM.position_encoding_2d]

/-- C9.  Both projections of the output head are built with bias enabled
and without sharding (tp_group none, tp_size 1) whatever the constructor
arguments are, and the wrapper's head stays unsharded even when the
configured tensor-parallel size exceeds 1 while its output dimension is
still the vocabulary size padded by that tensor-parallel size. -/
theorem chatglm_lm_head_unsharded {V : Type} (hidden_size vocab_size : Nat)
    (b : Bool) (tpg : Option Nat) (tps : Nat) (fcF layernormF projF : V → V)
    (config : PretrainedConfig) (htp : 1 < config.tp_size) :
    ((ChatGLMLMHead.init (V := V) hidden_size vocab_size b tpg tps fcF
        layernormF projF).fc.bias = true ∧
      (ChatGLMLMHead.init (V := V) hidden_size vocab_size b tpg tps fcF
        layernormF projF).fc.tp_group = none ∧
      (ChatGLMLMHead.init (V := V) hidden_size vocab_size b tpg tps fcF
        layernormF projF).fc.tp_size = 1 ∧
      (ChatGLMLMHead.init (V := V) hidden_size vocab_size b tpg tps fcF
        layernormF projF).proj.bias = true ∧
      (ChatGLMLMHead.init (V := V) hidden_size vocab_size b tpg tps fcF
        layernormF projF).proj.tp_group = none ∧
      (ChatGLMLMHead.init (V := V) hidden_size vocab_size b tpg tps fcF
        layernormF projF).proj.tp_size = 1) ∧
    ((ChatGLMForCausalLM.lm_head (V := V) config fcF layernormF projF).proj.tp_size
        = 1 ∧
      (ChatGLMForCausalLM.lm_head (V := V) config fcF layernormF projF).proj.tp_group
        = none ∧
      (ChatGLMForCausalLM.lm_head (V := V) config fcF layernormF projF).proj.out_features
        = pad_vocab_size config.output_vocab_size config.tp_size) :=
  ⟨⟨rfl, rfl, rfl, rfl, rfl, rfl⟩, rfl, rfl, rfl⟩

/-- C9 witness: the theorem applied at `cfgTp2` (tensor-parallel size 2)
with non-default constructor arguments. -/
theorem chatglm_lm_head_unsharded_witness :
    1 < cfgTp2.tp_size ∧
    (((ChatGLMLMHead.init (V := Nat) 4 9 false (some 3) 8 (fun x => x)
        (fun x => x) (fun x => x)).fc.bias = true ∧
      (ChatGLMLMHead.init (V := Nat) 4 9 false (some 3) 8 (fun x => x)
        (fun x => x) (fun x => x)).fc.tp_group = none ∧
      (ChatGLMLMHead.init (V := Nat) 4 9 false (some 3) 8 (fun x => x)
        (fun x => x) (fun x => x)).fc.tp_size = 1 ∧
      (ChatGLMLMHead.init (V := Nat) 4 9 false (some 3) 8 (fun x => x)
        (fun x => x) (fun x => x)).proj.bias = true ∧
      (ChatGLMLMHead.init (V := Nat) 4 9 false (some 3) 8 (fun x => x)
        (fun x => x) (fun x => x)).proj.tp_group = none ∧
      (ChatGLMLMHead.init (V := Nat) 4 9 false (some 3) 8 (fun x => x)
        (fun x => x) (fun x => x)).proj.tp_size = 1) ∧
    ((ChatGLMForCausalLM.lm_head (V := Nat) cfgTp2 (fun x => x) (fun x => x)
        (fun x => x)).proj.tp_size = 1 ∧
      (ChatGLMForCausalLM.lm_head (V := Nat) cfgTp2 (fun x => x) (fun x => x)
        (fun x => x)).proj.tp_group = none ∧
      (ChatGLMForCausalLM.lm_head (V := Nat) cfgTp2 (fun x => x) (fun x => x)
        (fun x => x)).proj.out_features
        = pad_vocab_size cfgTp2.output_vocab_size cfgTp2.tp_size)) :=
  ⟨by decide,
    chatglm_lm_head_unsharded 4 9 false (some 3) 8 (fun x => x) (fun x => x)
      (fun x => x) cfgTp2 (by decide)⟩

/-- C10.  With no second segment the tokenizer returns the first segment
with the mask token id appended as the single final element; with a
second segment the call fails (the undefined name `logger`) instead of
warning and ignoring it. -/
theorem zeus_tokenizer_build_inputs_special_tokens (mask_token_id : Nat)
    (token_ids_0 : List Nat) (token_ids_1 : List Nat) :
    ZeusTokenizer.build_inputs_with_special_tokens mask_token_id token_ids_0
        none = Except.ok (token_ids_0 ++ [mask_token_id]) ∧
    ZeusTokenizer.build_inputs_with_special_tokens mask_token_id token_ids_0
        (some token_ids_1) =
      Except.error "NameError: name logger is not defined" :=
  ⟨rfl, rfl⟩

end ChatGLM
